import Mathlib

/-!
Shallow embedding of the query-gateway program (`src/Main.py`) and proofs of
its specified properties.  Strings are modelled as `List Char`; Python's
ASCII-relevant behaviour of `str.lower`, `str.lstrip`, `in` (substring) and
`str.startswith` is modelled with the corresponding list operations.
-/

namespace Willtel

/-- Characters stripped by Python's `str.lstrip()` / `str.strip()`
(the ASCII whitespace characters). -/
def is_py_space (c : Char) : Bool :=
  c = ' ' || c = '\t' || c = '\n' || c = '\r' || c = Char.ofNat 11 || c = Char.ofNat 12

/-- Python `str.lstrip()`: drop leading whitespace. -/
def py_lstrip (l : List Char) : List Char := l.dropWhile is_py_space

/-- Python `str.strip()`: drop leading and trailing whitespace. -/
def py_strip (l : List Char) : List Char :=
  ((l.dropWhile is_py_space).reverse.dropWhile is_py_space).reverse

/-- Source constant `MAX_QUERY_LENGTH = 3000` (Main.py line 41). -/
def MAX_QUERY_LENGTH : Nat := 3000

/-- Source constant `FORBIDDEN_WORDS` (Main.py line 42), in source order. -/
def FORBIDDEN_WORDS : List (List Char) :=
  [";".data, "drop ".data, "delete ".data, "update ".data,
   "insert ".data, "truncate ".data, "alter ".data, "create ".data]

/-- Python's substring test `needle in hay`, as list-infix containment. -/
def py_in (needle hay : List Char) : Bool := decide (needle <:+: hay)

/-- Embedding of `query_is_safe` (Main.py lines 115-128):
reject empty payloads, payloads longer than `MAX_QUERY_LENGTH`, payloads
containing a semicolon, payloads whose lowercased, left-stripped text does
not start with "select", and payloads whose lowercased text contains a
forbidden word; accept everything else. -/
def query_is_safe (payload : List Char) : Bool :=
  if payload.isEmpty then false
  else if MAX_QUERY_LENGTH < payload.length then false
  else if payload.contains ';' then false
  else
    let lp := payload.map Char.toLower
    if !("select".data.isPrefixOf (py_lstrip lp)) then false
    else if FORBIDDEN_WORDS.any (fun f => py_in f lp) then false
    else true

/-- Characters of the identifier class `[A-Za-z0-9_]`. -/
def is_ident_char (c : Char) : Bool := c.isAlphanum || c = '_'

/-- A run of 1 to 63 identifier characters. -/
def ident_token (l : List Char) : Bool :=
  decide (1 ≤ l.length) && decide (l.length ≤ 63) && l.all is_ident_char

/-- Embedding of `VALID_TABLE_RE.match(t)` with
`VALID_TABLE_RE = re.compile(r"^[A-Za-z0-9_]{1,63}$")` (Main.py line 40).
Under Python regex semantics `$` matches at the end of the string and also
just before a newline at the end of the string, so the match succeeds on a
valid token optionally followed by one trailing newline. -/
def valid_table_match (t : List Char) : Bool :=
  ident_token t || (decide (t.getLast? = some '\n') && ident_token t.dropLast)

/-- Modelled from the spec's words, for comparison with the code's
`valid_table_match`: a token is accepted exactly when it consists of 1-63
characters drawn from ASCII letters, digits and underscore. -/
def spec_identifier_accepts (t : List Char) : Bool :=
  decide (1 ≤ t.length) && decide (t.length ≤ 63) && t.all is_ident_char

/-- Table query built by `http_table` (Main.py line 152) and `tg_table`
(line 214): the validated name is interpolated unchanged. -/
def build_table_sql (t : List Char) : List Char :=
  "SELECT * FROM \"".data ++ t ++ "\" LIMIT %s".data

/-- Embedding of the chunking loop
`for i in range(0, len(out), chunk_size): out[i:i+chunk_size]`
(Main.py lines 224-225 and 248-249): successive slices of length `L`.
The source always calls it with `L = 3800`; the `L = 0` guard only makes
the recursion total. -/
def chunk (block : List Char) (L : Nat) : List (List Char) :=
  if h : block = [] ∨ L = 0 then []
  else block.take L :: chunk (block.drop L) L
termination_by block.length
decreasing_by
  have h1 : block ≠ [] := fun hb => h (Or.inl hb)
  have h2 : L ≠ 0 := fun hl => h (Or.inr hl)
  have hpos := List.length_pos.mpr h1
  simp only [List.length_drop]
  omega

/-- Source constant `chunk_size = 3800` (Main.py lines 223, 247). -/
def TG_CHUNK_SIZE : Nat := 3800

/-- Python `sep.join(parts)`. -/
def py_join (sep : List Char) (parts : List (List Char)) : List Char :=
  (List.intersperse sep parts).flatten

/-- The Unicode replacement character U+FFFD emitted by
`bytes.decode("utf-8", errors="replace")` for invalid input. -/
def repl_char : Char := Char.ofNat 0xFFFD

/-- A UTF-8 continuation byte (0x80-0xBF). -/
def cont_byte (b : Nat) : Bool := decide (0x80 ≤ b) && decide (b ≤ 0xBF)

/-- Valid second byte of a three-byte UTF-8 sequence with lead byte `b`
(restricted for 0xE0 and 0xED to exclude overlong forms and surrogates). -/
def utf8_second_ok3 (b b2 : Nat) : Bool :=
  if b = 0xE0 then decide (0xA0 ≤ b2) && decide (b2 ≤ 0xBF)
  else if b = 0xED then decide (0x80 ≤ b2) && decide (b2 ≤ 0x9F)
  else cont_byte b2

/-- Valid second byte of a four-byte UTF-8 sequence with lead byte `b`
(restricted for 0xF0 and 0xF4 to exclude overlong forms and code points
above U+10FFFF). -/
def utf8_second_ok4 (b b2 : Nat) : Bool :=
  if b = 0xF0 then decide (0x90 ≤ b2) && decide (b2 ≤ 0xBF)
  else if b = 0xF4 then decide (0x80 ≤ b2) && decide (b2 ≤ 0x8F)
  else cont_byte b2

/-- Fuel-driven body of the replacing UTF-8 decoder.  Every step consumes
at least one input byte while spending exactly one unit of fuel, so fuel
equal to the input length (as supplied by `utf8_decode_replace`) never runs
out before the input does. -/
def utf8_decode_go : Nat → List Nat → List Char
  | 0, _ => []
  | _, [] => []
  | fuel + 1, b :: rest =>
    if b < 0x80 then Char.ofNat b :: utf8_decode_go fuel rest
    else if b < 0xC2 then repl_char :: utf8_decode_go fuel rest
    else if b < 0xE0 then
      match rest with
      | [] => [repl_char]
      | b2 :: rest2 =>
        if cont_byte b2 then
          Char.ofNat ((b - 0xC0) * 64 + (b2 - 0x80)) :: utf8_decode_go fuel rest2
        else repl_char :: utf8_decode_go fuel rest
    else if b < 0xF0 then
      match rest with
      | [] => [repl_char]
      | b2 :: rest2 =>
        if utf8_second_ok3 b b2 then
          match rest2 with
          | [] => [repl_char]
          | b3 :: rest3 =>
            if cont_byte b3 then
              Char.ofNat ((b - 0xE0) * 4096 + (b2 - 0x80) * 64 + (b3 - 0x80)) ::
                utf8_decode_go fuel rest3
            else repl_char :: utf8_decode_go fuel rest2
        else repl_char :: utf8_decode_go fuel rest
    else if b < 0xF5 then
      match rest with
      | [] => [repl_char]
      | b2 :: rest2 =>
        if utf8_second_ok4 b b2 then
          match rest2 with
          | [] => [repl_char]
          | b3 :: rest3 =>
            if cont_byte b3 then
              match rest3 with
              | [] => [repl_char]
              | b4 :: rest4 =>
                if cont_byte b4 then
                  Char.ofNat ((b - 0xF0) * 262144 + (b2 - 0x80) * 4096 +
                      (b3 - 0x80) * 64 + (b4 - 0x80)) ::
                    utf8_decode_go fuel rest4
                else repl_char :: utf8_decode_go fuel rest3
            else repl_char :: utf8_decode_go fuel rest2
        else repl_char :: utf8_decode_go fuel rest
    else repl_char :: utf8_decode_go fuel rest

/-- Embedding of `v.decode("utf-8", errors="replace")` (Main.py line 104):
a total UTF-8 decoder that substitutes U+FFFD for each maximal invalid
subpart instead of raising. -/
def utf8_decode_replace (l : List Nat) : List Char :=
  utf8_decode_go l.length l

/-- Scalar cell values delivered by the database driver, as handled by the
cell loop of `format_results` (Main.py lines 100-110); numeric scalars are
modelled as integers. -/
inductive Cell where
  | null : Cell
  | bytes : List Nat → Cell
  | str : List Char → Cell
  | int : Int → Cell

/-- Embedding of the cell rendering in `format_results` (Main.py lines
101-110): binary is decoded UTF-8 with replacement (which never raises, so
the `except` fallback to `str(v)` is unreachable), `None` renders as
"NULL", and any other scalar renders via `str(v)`. -/
def render_cell : Cell → List Char
  | Cell.null => "NULL".data
  | Cell.bytes b => utf8_decode_replace b
  | Cell.str s => s
  | Cell.int n => (toString n).data

/-- One data line of the formatted block: cells pipe-joined
(Main.py line 111). -/
def row_line (row : List Cell) : List Char :=
  py_join " | ".data (row.map render_cell)

/-- The omission marker line `f"... {len(rows) - max_rows} linhas omitidas ..."`
(Main.py line 98). -/
def omission_marker (n : Nat) : List Char :=
  "... ".data ++ (toString n).data ++ " linhas omitidas ...".data

/-- The row loop of `format_results` (Main.py lines 95-112): emit one line
per row until the cap is reached; when rows remain at the cap, emit the
omission marker (whose count is computed from the full row list) and stop. -/
def render_rows : List (List Cell) → Nat → Nat → List (List Char)
  | [], _, _ => []
  | _ :: _, 0, omitted => [omission_marker omitted]
  | r :: rs, k + 1, omitted => row_line r :: render_rows rs k omitted

/-- The `lines` list of `format_results` (Main.py lines 93-112) for a
non-empty column list: pipe-joined header, a dash separator of the same
length, then the row lines. -/
def format_lines (cols : List (List Char)) (rows : List (List Cell))
    (max_rows : Nat) : List (List Char) :=
  let header := py_join " | ".data cols
  header :: List.replicate header.length '-' ::
    render_rows rows max_rows (rows.length - max_rows)

/-- Embedding of `format_results` (Main.py lines 90-113): the sentinel for
an empty column list, otherwise the newline-joined lines. -/
def format_results (cols : List (List Char)) (rows : List (List Cell))
    (max_rows : Nat) : List Char :=
  if cols.isEmpty then "(nenhum resultado)".data
  else py_join "\n".data (format_lines cols rows max_rows)

/-- One replacement step of Python `html.escape(s, quote=True)`: escapes
`&`, `<`, `>`, double quote and single quote. -/
def escape_char (c : Char) : List Char :=
  if c = '&' then "&amp;".data
  else if c = '<' then "&lt;".data
  else if c = '>' then "&gt;".data
  else if c = Char.ofNat 34 then "&quot;".data
  else if c = Char.ofNat 39 then "&#x27;".data
  else [c]

/-- Python `html.escape(s, quote=True)` (Main.py lines 225, 249).  The
sequential `str.replace` passes are equivalent to this per-character
expansion because no replacement output contains a character replaced by a
later pass. -/
def html_escape (s : List Char) : List Char := (s.map escape_char).flatten

/-- One chat message built by `tg_table` / `tg_query` (Main.py lines 225,
249): the chunk HTML-escaped and wrapped in a `pre` block. -/
def tg_message (c : List Char) : List Char :=
  "<pre>".data ++ html_escape c ++ "</pre>".data

/-- The full chat delivery of a formatted block (Main.py lines 223-225 and
247-249): chunk at 3800 characters, then escape and wrap each chunk. -/
def tg_messages (out : List Char) : List (List Char) :=
  (chunk out TG_CHUNK_SIZE).map tg_message

/-- Limit clamping `max(1, min(1000, limit))` (Main.py lines 151 and 210). -/
def clamp_limit (n : Int) : Int := max 1 (min 1000 n)

/-- Python `int(text)` on an already-stripped unsigned token: ASCII decimal
digits with single underscores allowed between digits; `none` models a
raised `ValueError`. -/
def digits_parse (l : List Char) : Option Nat :=
  if !l.isEmpty && l.all (fun c => c.isDigit || c = '_')
      && (l.head?.map Char.isDigit).getD false
      && (l.getLast?.map Char.isDigit).getD false
      && !(py_in ['_', '_'] l) then
    some ((l.filter Char.isDigit).foldl (fun a c => 10 * a + (c.toNat - 48)) 0)
  else none

/-- Signed integer parsing for one allow-list entry. -/
def py_int_parse (l : List Char) : Option Int :=
  match l with
  | '+' :: rest => (digits_parse rest).map Int.ofNat
  | '-' :: rest => (digits_parse rest).map (fun n => -(Int.ofNat n))
  | _ => (digits_parse l).map Int.ofNat

/-- The comma-separated entries of the allow-list value that survive the
`if x.strip()` filter (Main.py line 31), each stripped. -/
def allowlist_items (s : List Char) : List (List Char) :=
  ((s.splitOn ',').map py_strip).filter (fun x => !x.isEmpty)

/-- Embedding of the `ALLOWED_CHAT_IDS` construction (Main.py lines 28-35):
`none` models an absent (or empty, hence falsy) environment value; if any
entry fails to parse the `except` branch yields the empty set. -/
def parse_allowed (v : Option (List Char)) : Option (List Int) :=
  match v with
  | none => none
  | some s =>
    if s.isEmpty = true then none
    else
      match (allowlist_items s).mapM py_int_parse with
      | some ids => some ids
      | none => some []

/-- Embedding of `is_chat_allowed` (Main.py lines 178-181): open access
when no allow-list is configured, membership otherwise. -/
def is_chat_allowed (allowed : Option (List Int)) (chat_id : Int) : Bool :=
  match allowed with
  | none => true
  | some ids => ids.contains chat_id

/-- Claim C1: every payload containing the statement separator ';' is
rejected by the query safety gate. -/
theorem query_is_safe_rejects_semicolon (s : List Char)
    (h : s.contains ';' = true) : query_is_safe s = false := by
  unfold query_is_safe
  split
  · rfl
  · split
    · rfl
    · simp [h]

/-- Witness for C1: the gate rejects a concrete payload containing ';'. -/
theorem query_is_safe_rejects_semicolon_witness :
    "select 1; drop table t".data.contains ';' = true ∧
      query_is_safe "select 1; drop table t".data = false :=
  ⟨by decide, query_is_safe_rejects_semicolon "select 1; drop table t".data (by decide)⟩

/-- Claim C3: every payload whose lowercased, left-stripped text does not
begin with "select" (empty and whitespace-only payloads included) is
rejected by the query safety gate. -/
theorem query_is_safe_requires_select (s : List Char)
    (h : "select".data.isPrefixOf (py_lstrip (s.map Char.toLower)) = false) :
    query_is_safe s = false := by
  unfold query_is_safe
  split
  · rfl
  · split
    · rfl
    · split
      · rfl
      · simp [h]

/-- Witness for C3: the gate rejects a concrete payload not starting with
the read-only keyword. -/
theorem query_is_safe_requires_select_witness :
    "  show tables".data.map Char.toLower = "  show tables".data ∧
      query_is_safe "  show tables".data = false :=
  ⟨by decide, query_is_safe_requires_select "  show tables".data (by decide)⟩

/-- Claim C4: every payload whose lowercased form contains a forbidden
mutating keyword followed by a space is rejected by the query safety gate,
even when it starts with the read-only prefix. -/
theorem query_is_safe_rejects_mutating (s w : List Char)
    (hw : w ∈ ["drop ".data, "delete ".data, "update ".data, "insert ".data,
               "truncate ".data, "alter ".data, "create ".data])
    (hin : py_in w (s.map Char.toLower) = true) :
    query_is_safe s = false := by
  have hmem : w ∈ FORBIDDEN_WORDS := by
    simp only [FORBIDDEN_WORDS, List.mem_cons, List.not_mem_nil, or_false] at hw ⊢
    tauto
  unfold query_is_safe
  split
  · rfl
  · split
    · rfl
    · split
      · rfl
      · have hany : FORBIDDEN_WORDS.any (fun f => py_in f (s.map Char.toLower)) = true :=
          List.any_eq_true.mpr ⟨w, hmem, hin⟩
        simp [hany]

/-- Witness for C4: the gate rejects a concrete select-prefixed payload
containing the mutating keyword "delete ". -/
theorem query_is_safe_rejects_mutating_witness :
    py_in "delete ".data ("SELECT delete FROM t".data.map Char.toLower) = true ∧
      query_is_safe "SELECT delete FROM t".data = false :=
  ⟨by decide,
   query_is_safe_rejects_mutating "SELECT delete FROM t".data "delete ".data
     (by decide) (by decide)⟩

/-- Counterexample to claim C2 as stated: the token "users\n" carries a
trailing newline, which the claim says is rejected, yet the code's regex
match accepts it because Python's `$` matches before a trailing newline. -/
theorem valid_table_match_accepts_trailing_newline :
    spec_identifier_accepts "users\n".data = false ∧
      valid_table_match "users\n".data = true := by decide

/-- Claim C2 as amended: the identifier policy accepts exactly the tokens
of 1-63 characters from `[A-Za-z0-9_]`, optionally followed by one trailing
newline; accepted tokens are interpolated unchanged into the table query. -/
theorem valid_table_match_amended (t : List Char) :
    (valid_table_match t = true ↔
      spec_identifier_accepts t = true ∨
        ∃ w, t = w ++ ['\n'] ∧ spec_identifier_accepts w = true) ∧
    build_table_sql t = "SELECT * FROM \"".data ++ t ++ "\" LIMIT %s".data := by
  refine ⟨?_, rfl⟩
  unfold valid_table_match spec_identifier_accepts ident_token
  simp only [Bool.or_eq_true, Bool.and_eq_true, decide_eq_true_eq]
  apply or_congr Iff.rfl
  constructor
  · rintro ⟨hlast, hident⟩
    have hne : t ≠ [] := by rintro rfl; simp at hlast
    refine ⟨t.dropLast, ?_, hident⟩
    have hsplit := List.dropLast_append_getLast hne
    rw [List.getLast?_eq_getLast t hne] at hlast
    rw [Option.some.injEq] at hlast
    rw [hlast] at hsplit
    exact hsplit.symm
  · rintro ⟨w, rfl, hw⟩
    refine ⟨?_, by simpa [List.dropLast_concat] using hw⟩
    simp

/-- Witness for the amended C2: a concrete valid token is accepted and
used unchanged in the constructed query. -/
theorem valid_table_match_amended_witness :
    valid_table_match "users".data = true ∧
      build_table_sql "users".data =
        "SELECT * FROM \"".data ++ "users".data ++ "\" LIMIT %s".data :=
  ⟨(valid_table_match_amended "users".data).1.mpr (Or.inl (by decide)),
   (valid_table_match_amended "users".data).2⟩

/-- Claim C5: for every block and chunk length L ≥ 1, concatenating the
chunks in order reproduces the block exactly, and every chunk has length
at most L. -/
theorem chunk_join_and_bound (block : List Char) (L : Nat) (hL : 1 ≤ L) :
    (chunk block L).flatten = block ∧ ∀ c ∈ chunk block L, c.length ≤ L := by
  induction block, L using chunk.induct with
  | case1 block L h =>
    have hb : block = [] := by
      rcases h with hb | hl
      · exact hb
      · omega
    rw [chunk, dif_pos h, hb]
    exact ⟨rfl, by intro c hc; simp at hc⟩
  | case2 block L h ih =>
    obtain ⟨hjoin, hbound⟩ := ih hL
    rw [chunk, dif_neg h]
    constructor
    · simp only [List.flatten, hjoin]
      exact List.take_append_drop L block
    · intro c hc
      rcases List.mem_cons.mp hc with rfl | hc
      · simpa using List.length_take_le L block
      · exact hbound c hc

/-- Witness for C5: chunking a concrete block with L = 2 reassembles it. -/
theorem chunk_join_and_bound_witness :
    1 ≤ 2 ∧ (chunk "abcde".data 2).flatten = "abcde".data :=
  ⟨by decide, (chunk_join_and_bound "abcde".data 2 (by decide)).1⟩

/-- When at most the cap many rows are present, the row loop renders every
row and no marker. -/
theorem render_rows_of_le (rows : List (List Cell)) (C om : Nat)
    (h : rows.length ≤ C) : render_rows rows C om = rows.map row_line := by
  induction rows generalizing C with
  | nil => simp [render_rows]
  | cons r rs ih =>
    cases C with
    | zero => simp at h
    | succ k =>
      simp only [List.length_cons, Nat.succ_le_succ_iff] at h
      simp [render_rows, ih k h]

/-- When more rows than the cap are present, the row loop renders exactly
the first cap-many rows followed by the omission marker. -/
theorem render_rows_of_gt (rows : List (List Cell)) (C om : Nat)
    (h : C < rows.length) :
    render_rows rows C om = (rows.take C).map row_line ++ [omission_marker om] := by
  induction rows generalizing C with
  | nil => simp at h
  | cons r rs ih =>
    cases C with
    | zero => simp [render_rows]
    | succ k =>
      simp only [List.length_cons, Nat.succ_lt_succ_iff] at h
      simp [render_rows, List.take_succ_cons, ih k h]

/-- Claim C6: for a non-empty column list, row count R and cap C, the
formatted block has exactly R data lines and no omission marker when
R ≤ C, and exactly C data lines followed by one omission marker stating
R - C when R > C. -/
theorem format_results_row_cap (cols : List (List Char))
    (rows : List (List Cell)) (C : Nat) (hcols : cols ≠ []) :
    (rows.length ≤ C →
      format_lines cols rows C =
        py_join " | ".data cols ::
          List.replicate (py_join " | ".data cols).length '-' ::
            rows.map row_line) ∧
    (C < rows.length →
      format_lines cols rows C =
        py_join " | ".data cols ::
          List.replicate (py_join " | ".data cols).length '-' ::
            ((rows.take C).map row_line ++ [omission_marker (rows.length - C)])) ∧
    format_results cols rows C = py_join "\n".data (format_lines cols rows C) := by
  refine ⟨fun h => ?_, fun h => ?_, ?_⟩
  · unfold format_lines
    rw [render_rows_of_le rows C _ h]
  · unfold format_lines
    rw [render_rows_of_gt rows C _ h]
  · unfold format_results
    rw [if_neg]
    simp [hcols]

/-- Witness for C6: one extra row beyond the cap yields exactly the capped
rows plus the omission marker for one omitted row. -/
theorem format_results_row_cap_witness :
    (["a".data] : List (List Char)) ≠ [] ∧
      format_lines ["a".data] [[Cell.int 1], [Cell.int 2], [Cell.int 3]] 2 =
        py_join " | ".data ["a".data] ::
          List.replicate (py_join " | ".data ["a".data]).length '-' ::
            (([[Cell.int 1], [Cell.int 2], [Cell.int 3]].take 2).map row_line ++
              [omission_marker (3 - 2)]) :=
  ⟨by simp,
   (format_results_row_cap ["a".data] [[Cell.int 1], [Cell.int 2], [Cell.int 3]] 2
      (by simp)).2.1 (by simp)⟩

/-- Claim C8: an integer limit is clamped to [1, 1000], to the nearest
bound outside the range and unchanged inside it. -/
theorem clamp_limit_spec (n : Int) :
    (1000 < n → clamp_limit n = 1000) ∧ (n < 1 → clamp_limit n = 1) ∧
      (1 ≤ n → n ≤ 1000 → clamp_limit n = n) := by
  unfold clamp_limit
  refine ⟨fun h => ?_, fun h => ?_, fun h1 h2 => ?_⟩ <;> omega

/-- Witness for C8: 5000 clamps to 1000, 0 clamps to 1, 20 is unchanged. -/
theorem clamp_limit_spec_witness :
    clamp_limit 5000 = 1000 ∧ clamp_limit 0 = 1 ∧ clamp_limit 20 = 20 :=
  ⟨(clamp_limit_spec 5000).1 (by decide), (clamp_limit_spec 0).2.1 (by decide),
   (clamp_limit_spec 20).2.2 (by decide) (by decide)⟩

/-- Claim C9: an absent allow-list value means open access for every chat
id, while a present non-empty value with no valid integer entries (all
items blank, or a parse failure) yields the empty set and denies every
chat id. -/
theorem allowlist_deny_all_or_open :
    (parse_allowed none = none ∧
      ∀ cid : Int, is_chat_allowed (parse_allowed none) cid = true) ∧
    (∀ s : List Char, s.isEmpty = false →
      allowlist_items s = [] ∨ (allowlist_items s).mapM py_int_parse = none →
      parse_allowed (some s) = some [] ∧
        ∀ cid : Int, is_chat_allowed (parse_allowed (some s)) cid = false) := by
  constructor
  · exact ⟨rfl, fun cid => rfl⟩
  · intro s hs hcase
    have hpa : parse_allowed (some s) = some [] := by
      simp only [parse_allowed]
      rw [if_neg (by simp [hs])]
      rcases hcase with hitems | hnone
      · rw [hitems]
        rfl
      · rw [hnone]
    refine ⟨hpa, fun cid => ?_⟩
    rw [hpa]
    rfl

/-- Witness for C9: the value "x" parses to no valid entries, so chat id 5
is denied; with no value configured chat id 5 is allowed. -/
theorem allowlist_deny_all_or_open_witness :
    parse_allowed (some "x".data) = some [] ∧
      is_chat_allowed (parse_allowed (some "x".data)) 5 = false ∧
      is_chat_allowed (parse_allowed none) 5 = true :=
  ⟨(allowlist_deny_all_or_open.2 "x".data (by decide) (Or.inr (by decide))).1,
   (allowlist_deny_all_or_open.2 "x".data (by decide) (Or.inr (by decide))).2 5,
   allowlist_deny_all_or_open.1.2 5⟩

/-- Claim C10: formatting is total on every mix of null, binary, string
and numeric cells: every input yields an output string, null renders as
"NULL", binary is rendered through the replacing UTF-8 decoder, strings
and numbers render via their default string form, and the replacing
decoder never gets stuck (it emits output for every non-empty input). -/
theorem format_results_total_and_safe :
    (∀ cols rows C, ∃ out : List Char, format_results cols rows C = out) ∧
    render_cell Cell.null = "NULL".data ∧
    (∀ b, render_cell (Cell.bytes b) = utf8_decode_replace b) ∧
    (∀ s, render_cell (Cell.str s) = s) ∧
    (∀ n : Int, render_cell (Cell.int n) = (toString n).data) ∧
    (∀ bs : List Nat, bs ≠ [] → utf8_decode_replace bs ≠ []) := by
  refine ⟨fun cols rows C => ⟨_, rfl⟩, rfl, fun b => rfl, fun s => rfl,
    fun n => rfl, ?_⟩
  intro bs hbs
  cases bs with
  | nil => exact absurd rfl hbs
  | cons b rest =>
    show utf8_decode_go (b :: rest).length (b :: rest) ≠ []
    simp only [List.length_cons]
    simp only [utf8_decode_go]
    repeat' split
    all_goals simp

/-- Witness for C10: decoding the invalid single byte 0xFF yields output
(one replacement character) rather than failing. -/
theorem format_results_total_and_safe_witness :
    ([255] : List Nat) ≠ [] ∧ utf8_decode_replace [255] ≠ [] :=
  ⟨by decide, format_results_total_and_safe.2.2.2.2.2 [255] (by decide)⟩

/-- Escaping distributes over concatenation. -/
theorem html_escape_append (a b : List Char) :
    html_escape (a ++ b) = html_escape a ++ html_escape b := by
  simp [html_escape]

/-- Length of escaping a repeated character. -/
theorem html_escape_replicate_length (n : Nat) (c : Char) :
    (html_escape (List.replicate n c)).length = n * (escape_char c).length := by
  induction n with
  | zero => simp [html_escape]
  | succ k ih =>
    simp only [List.replicate_succ, html_escape, List.map_cons, List.flatten_cons,
      List.length_append] at ih ⊢
    rw [ih, Nat.succ_mul]
    omega

/-- A delivered message is eleven characters of `pre` wrapping around the
escaped chunk. -/
theorem tg_message_length (c : List Char) :
    (tg_message c).length = 11 + (html_escape c).length := by
  simp [tg_message]
  omega

/-- Claim C7 fails on the code: a formatted block made of one string cell
holding 4000 markup characters is delivered as a first message of 15199
characters and a second of 827, the first far above the ~4096 transport
ceiling, because escaping happens after the 3800-character chunking. -/
theorem tg_message_exceeds_telegram_limit :
    (tg_messages (format_results ["a".data]
        [[Cell.str (List.replicate 4000 '<')]] 200)).map List.length
      = [15199, 827] := by
  have hle : ([[Cell.str (List.replicate 4000 '<')]] : List (List Cell)).length ≤ 200 := by
    simp only [List.length_cons, List.length_nil]
    omega
  have hr : render_rows [[Cell.str (List.replicate 4000 '<')]] 200
      (([[Cell.str (List.replicate 4000 '<')]] : List (List Cell)).length - 200)
      = [row_line [Cell.str (List.replicate 4000 '<')]] := by
    rw [render_rows_of_le _ _ _ hle]
    rfl
  have hrow : row_line [Cell.str (List.replicate 4000 '<')]
      = List.replicate 4000 '<' := by
    simp only [row_line, List.map_cons, List.map_nil, render_cell, py_join,
      List.intersperse_singleton, List.flatten_cons, List.flatten_nil,
      List.append_nil]
  have hblock : format_results ["a".data] [[Cell.str (List.replicate 4000 '<')]] 200
      = "a\n-\n".data ++ List.replicate 4000 '<' := by
    unfold format_results
    rw [if_neg (by decide)]
    unfold format_lines
    simp only [hr, hrow]
    simp only [py_join, List.intersperse_cons_cons, List.intersperse_singleton,
      List.flatten_cons, List.flatten_nil, List.append_nil]
    rfl
  have hplen : ("a\n-\n".data : List Char).length ≤ 3800 := by decide
  have hplen4 : ("a\n-\n".data : List Char).length = 4 := by decide
  have htake : (("a\n-\n".data ++ List.replicate 4000 '<').take 3800)
      = "a\n-\n".data ++ List.replicate 3796 '<' := by
    rw [List.take_append_eq_append_take, List.take_of_length_le hplen,
      List.take_replicate, hplen4]
    norm_num
  have hdrop : (("a\n-\n".data ++ List.replicate 4000 '<').drop 3800)
      = List.replicate 204 '<' := by
    rw [List.drop_append_eq_append_drop, List.drop_eq_nil_of_le hplen,
      List.drop_replicate, hplen4]
    norm_num
  have hrep204 : (List.replicate 204 '<').length ≤ 3800 := by
    simp only [List.length_replicate]
    omega
  have e1 : (List.replicate 204 '<').take 3800 = List.replicate 204 '<' :=
    List.take_of_length_le hrep204
  have e2 : (List.replicate 204 '<').drop 3800 = ([] : List Char) :=
    List.drop_eq_nil_of_le hrep204
  have hne1 : ¬("a\n-\n".data ++ List.replicate 4000 '<' = [] ∨ 3800 = 0) := by
    rintro (h | h)
    · have hlen := congrArg List.length h
      simp only [List.length_append, List.length_replicate, List.length_nil] at hlen
      omega
    · omega
  have hne2 : ¬(List.replicate 204 '<' = ([] : List Char) ∨ 3800 = 0) := by
    rintro (h | h)
    · have hlen := congrArg List.length h
      simp only [List.length_replicate, List.length_nil] at hlen
      omega
    · omega
  have hchunk : chunk ("a\n-\n".data ++ List.replicate 4000 '<') 3800
      = ["a\n-\n".data ++ List.replicate 3796 '<', List.replicate 204 '<'] := by
    rw [chunk, dif_neg hne1, htake, hdrop, chunk, dif_neg hne2,
      e1, e2, chunk, dif_pos (Or.inl rfl)]
  have h1 : (html_escape "a\n-\n".data).length = 4 := by decide
  have h2 : (escape_char '<').length = 4 := by decide
  simp only [tg_messages, TG_CHUNK_SIZE, hblock, hchunk, List.map_cons, List.map_nil]
  rw [tg_message_length, tg_message_length, html_escape_append, List.length_append,
    html_escape_replicate_length, html_escape_replicate_length, h1, h2]

end Willtel
